import Mathlib

/-!
Verification development for the voice-command session controller
(`src/components/speech/SpeechControl.tsx`).

The controller is shallowly embedded: React `useState`/`useRef` cells become
fields of an explicit `SessionState`, the read-only context consumed by the
handlers (current time, the speech-synthesis `speaking` flag, the music
library, DOM probes) becomes an `Env` record, and every observable side
effect (TTS, dispatched window events, navigation, playback, toasts, the
socket/recorder teardown) becomes a constructor of `Effect`.  `processCommand`,
`stopListening`, the socket `onmessage`/`onerror` handlers and the inactivity
watchdog are translated line by line from the source.
-/

/-! ## String helpers mirroring the JavaScript string operations used by the source -/

/-- `p` occurs as a contiguous sublist of the second argument. -/
def infixCheck (p : List Char) : List Char → Bool
  | [] => p.isEmpty
  | c :: rest => p.isPrefixOf (c :: rest) || infixCheck p rest

/-- JavaScript `s.includes(pat)`: `pat` occurs as a contiguous substring of `s`. -/
def strIncludes (s pat : String) : Bool :=
  infixCheck pat.data s.data

/-- JavaScript `s.endsWith(pat)`. -/
def strEndsWith (s pat : String) : Bool :=
  pat.data.isSuffixOf s.data

/-- JavaScript `s.toLowerCase()` (ASCII case mapping, as used by the source). -/
def strToLower (s : String) : String :=
  ⟨s.data.map Char.toLower⟩

/-- JavaScript `s.trim()`: strip leading and trailing whitespace. -/
def strTrim (s : String) : String :=
  ⟨((s.data.dropWhile Char.isWhitespace).reverse.dropWhile Char.isWhitespace).reverse⟩

/-- Split a character list at every character satisfying `p` (separators are
dropped; empty segments are kept, as in JavaScript `split`). -/
def splitOnPChar (p : Char → Bool) : List Char → List (List Char)
  | [] => [[]]
  | c :: rest =>
    match splitOnPChar p rest with
    | [] => [[]]
    | h :: t => if p c then [] :: h :: t else (c :: h) :: t

/-- JavaScript `text.split(/\s+/)` word list.  The regex collapses whitespace
runs, so empty segments are filtered; on the (already trimmed) inputs of the
source the resulting word count coincides with the JavaScript one. -/
def wordsOf (s : String) : List String :=
  ((splitOnPChar Char.isWhitespace s.data).filter (fun w => w ≠ [])).map
    (fun w => (⟨w⟩ : String))

/-- The basename computation of the source (lines 286-289 and 481-484):
`file.filename.replace(/\\/g,'/').split('/')`, take the last path segment,
`split('.')[0]`, lower-cased. -/
def basename (filename : String) : String :=
  let replaced := filename.data.map (fun c => if c = '\\' then '/' else c)
  let parts := splitOnPChar (fun c => c = '/') replaced
  let lastPart := parts.getLastD []
  let base := (splitOnPChar (fun c => c = '.') lastPart).headD []
  strToLower ⟨base⟩

/-- Remainder of `l` after the first occurrence of `sep`, scanning left to
right (`none` when `sep` does not occur). -/
def afterFirst (sep : List Char) : List Char → Option (List Char)
  | [] => none
  | c :: rest =>
    if sep.isPrefixOf (c :: rest) then some ((c :: rest).drop sep.length)
    else afterFirst sep rest

/-- JavaScript `text.match(/select (.+)/i)`, returning the capture group: the
text after the first occurrence of `"select "` (the match fails when nothing
follows it; the input is already lower-cased so the `i` flag is moot). -/
def selectMatch (text : String) : Option String :=
  match afterFirst "select ".data text.data with
  | none => none
  | some r => if r = [] then none else some ⟨r⟩

/-- Backtracking step for `/play (.+) (?:for|from) (.+)/`: find the rightmost
decomposition `s = g1 ++ " for " ++ g2` or `s = g1 ++ " from " ++ g2` with `g2`
nonempty (rightmost = the greedy choice of the first `.+`).  `g1` may be empty
here; the caller rules that out. -/
def sepSplit : List Char → Option (List Char × List Char)
  | [] => none
  | c :: rest =>
    match sepSplit rest with
    | some (g1, g2) => some (c :: g1, g2)
    | none =>
      if " for ".data.isPrefixOf (c :: rest) ∧ 5 < (c :: rest).length then
        some ([], (c :: rest).drop 5)
      else if " from ".data.isPrefixOf (c :: rest) ∧ 6 < (c :: rest).length then
        some ([], (c :: rest).drop 6)
      else none

/-- Scan for the leftmost starting position of a match of
`/play (.+) (?:for|from) (.+)/` (both groups nonempty, second group running to
the end of the text). -/
def playScan : List Char → Option (List Char × List Char)
  | [] => none
  | c :: rest =>
    if "play ".data.isPrefixOf (c :: rest) then
      match sepSplit ((c :: rest).drop 5) with
      | some (g1, g2) => if g1 ≠ [] then some (g1, g2) else playScan rest
      | none => playScan rest
    else playScan rest

/-- JavaScript `text.match(/play (.+) (?:for|from) (.+)/i)` returning the two
capture groups. -/
def playMatch (text : String) : Option (String × String) :=
  match playScan text.data with
  | some (g1, g2) => some (⟨g1⟩, ⟨g2⟩)
  | none => none

/-! ## Data model -/

/-- `connectionState` state cell: `'offline' | 'connecting' | 'online'`. -/
inductive ConnState
  | offline
  | connecting
  | online
deriving DecidableEq, Repr

/-- `flowState` state cell. -/
inductive FlowState
  | idle
  | tosVerification
  | uploadConfirmation
  | stemSelectionPrompt
deriving DecidableEq, Repr

/-- `pendingAction.type`. -/
inductive PAType
  | upload
  | select
deriving DecidableEq, Repr

/-- `pendingAction` payload: `{ type, label }`. -/
structure PendingAction where
  type : PAType
  label : String
deriving DecidableEq, Repr

/-- A stem layer of a song (`MusicLayer` in `types/music.ts`; only the fields
the controller reads). -/
structure MusicLayer where
  id : String
  name : String
deriving DecidableEq, Repr

/-- A delivered file of a song. -/
structure MusicFile where
  filename : String
deriving DecidableEq, Repr

/-- A library entry (`MusicUrl` in `types/music.ts`; only the fields the
controller reads; `files` is optional in the source, hence `Option`). -/
structure MusicUrl where
  id : String
  title : String
  layers : List MusicLayer
  files : Option (List MusicFile)
deriving DecidableEq, Repr

/-- The mutable cells of the controller: React state (`connectionState`,
`status`, `liveTranscript`, `flowState`, `pendingAction`) and refs
(`isListeningRef`, `tosSummaryStartTimeRef`, the timer, recorder and socket
handles, the latter three abstracted to presence flags / a deadline). -/
structure SessionState where
  connectionState : ConnState
  status : Option String
  liveTranscript : Option String
  flowState : FlowState
  pendingAction : Option PendingAction
  isListening : Bool
  tosSummaryStartTime : Nat
  timeoutDeadline : Option Nat
  recorderActive : Bool
  socketActive : Bool
deriving DecidableEq, Repr

/-- Read-only context of a handler invocation: the clock (`Date.now()`), the
`isAssistantSpeakingRef` and `window.speechSynthesis.speaking` flags, the music
library `urls`, `isMobile()`, and DOM probes for the two buttons the handlers
click (plus whether a programmatic click would throw). -/
structure Env where
  now : Nat
  assistantSpeaking : Bool
  synthSpeaking : Bool
  urls : List MusicUrl
  isMobile : Bool
  fileInputExists : Bool
  clearButtonExists : Bool
  fileInputClickThrows : Bool
deriving DecidableEq, Repr

/-- Observable side effects of the handlers. -/
inductive Effect
  | speak (text : String)
  | dispatchEvent (name : String) (detail : String)
  | navigate (path : String)
  | navigateBack
  | playAll (songId : String)
  | stopAllPlayback
  | clearLibrary
  | playToggle (trackKey : String) (filename : String) (songId : String)
  | reload
  | logout
  | clickFileInput
  | clickClearButton
  | toast (title : String) (description : String)
  | stopSession
  | stopRecorder
  | closeSocket
  | resetWatchdog
  | scheduleTranscriptClear
deriving DecidableEq, Repr

/-! ## Teardown (`stopListening`, lines 127-156) -/

/-- State after `stopListening()`: offline, idle flow, no pending action, no
status, no live transcript, timer cancelled, recorder and socket references
null.  Only `tosSummaryStartTimeRef` is left untouched. -/
def stopListening (s : SessionState) : SessionState :=
  { connectionState := .offline
    status := none
    liveTranscript := none
    flowState := .idle
    pendingAction := none
    isListening := false
    tosSummaryStartTime := s.tosSummaryStartTime
    timeoutDeadline := none
    recorderActive := false
    socketActive := false }

/-- Effects of `stopListening()`: the (single) session teardown, plus stopping
the recorder / closing the socket when those references are non-null. -/
def stopListeningEffects (s : SessionState) : List Effect :=
  Effect.stopSession ::
    ((if s.recorderActive then [Effect.stopRecorder] else []) ++
      (if s.socketActive then [Effect.closeSocket] else []))

/-! ## Conversational flow steps of `processCommand` (lines 178-316)

`text` is always the normalized transcript `strTrim (strToLower transcript)`.
Each step returns `(matched, new state, effects)` where `matched` is the
boolean the source returns. -/

/-- The `tos-verification` block (lines 178-229). -/
def tosStep (env : Env) (s : SessionState) (text : String) :
    Bool × SessionState × List Effect :=
  if env.assistantSpeaking || env.synthSpeaking then (false, s, [])
  else if env.now - s.tosSummaryStartTime < 2000 then (false, s, [])
  else
    let words := wordsOf text
    let matchesAgree :=
      text == "yes" || text == "i agree" || text == "agree" ||
      text == "confirm" || text == "i do" ||
      (decide (words.length ≤ 3) && (strIncludes text "yes" || strIncludes text "agree"))
    if matchesAgree then
      (true,
        { s with status := some "TOS Agreed. Proceeding...", flowState := .idle,
                 liveTranscript := none },
        [Effect.speak "Great. Proceeding with the request.",
         Effect.dispatchEvent "voice-trigger-split" ""])
    else if text == "no" || text == "cancel" || text == "disagree" ||
        strIncludes text "don\x27t agree" then
      (true,
        { s with status := some "Cancelled.", flowState := .idle, liveTranscript := none },
        [Effect.speak "Cancelled."])
    else if strEndsWith text "done" || text == "stop listening" ||
        text == "turn off" || text == "stop voice" then
      (true, stopListening s,
        Effect.speak "Cancelling voice control." :: stopListeningEffects s)
    else (false, s, [])

/-- The `upload-confirmation` block (lines 231-255). -/
def uploadStep (env : Env) (s : SessionState) (text : String) :
    Bool × SessionState × List Effect :=
  if strIncludes text "yes" || strIncludes text "sure" || strIncludes text "ok" ||
      strIncludes text "confirm" || strIncludes text "do it" || text == "yes" then
    if env.fileInputExists then
      if env.fileInputClickThrows then
        (true, { s with status := some "Tap required..." },
          [Effect.speak
            "Your browser requires a physical tap. Please touch the open file explorer button."])
      else
        (true, { s with status := some "Opening file explorer..." },
          [Effect.clickFileInput,
           Effect.speak
            "Attempting to open file explorer. If it doesn\x27t appear, please tap the button on your screen."])
    else (true, s, [])
  else if strIncludes text "no" || strIncludes text "cancel" || strIncludes text "stop" then
    (true,
      { s with status := some "Cancelled.", flowState := .idle, pendingAction := none },
      [Effect.speak "Cancelled."])
  else (false, s, [])

/-- `song.files?.find(...)` by basename-equals-layer-id (lines 286-290 and
481-485). -/
def findStemFile (song : MusicUrl) (layerId : String) : Option MusicFile :=
  (song.files.getD []).find? (fun f => basename f.filename == strToLower layerId)

/-- The `stem-selection-prompt` block (lines 257-316). -/
def stemPromptStep (env : Env) (s : SessionState) (text : String) :
    Bool × SessionState × List Effect :=
  if env.assistantSpeaking || env.synthSpeaking then (false, s, [])
  else
    match env.urls with
    | [] => (false, { s with flowState := .idle }, [])
    | latestSong :: _ =>
      if strIncludes text "all" || strIncludes text "everything" ||
          strIncludes text "play all" then
        (true, s, [Effect.speak "Playing all stems.", Effect.playAll latestSong.id])
      else
        let stems := latestSong.layers
        let targetStem :=
          if strIncludes text "vocal" then
            stems.find? (fun st => st.id == "vocals" || st.id == "vocal")
          else if strIncludes text "drum" || strIncludes text "percussion" then
            stems.find? (fun st => st.id == "drums" || st.id == "drum")
          else if strIncludes text "bass" then
            stems.find? (fun st => st.id == "bass")
          else if strIncludes text "instrumental" || strIncludes text "other" then
            stems.find? (fun st => st.id == "other" || st.id == "instrumental")
          else if strIncludes text "original" then
            stems.find? (fun st => st.id == "original")
          else none
        match targetStem.bind (fun st => (findStemFile latestSong st.id).map (st, ·)) with
        | some (st, f) =>
          (true, s,
            [Effect.speak ("Playing " ++ st.name ++ "."),
             Effect.playToggle (latestSong.id ++ "__" ++ f.filename) f.filename latestSong.id])
        | none =>
          if strIncludes text "nothing" || strIncludes text "no thanks" ||
              strIncludes text "stop" || strIncludes text "that\x27s it" ||
              strIncludes text "goodbye" || text == "no" || text == "done" ||
              text == "cancel" then
            (true, { s with flowState := .idle },
              [Effect.speak "Okay, let me know if you need anything else."])
          else (false, s, [])

/-! ## Standard-command rule guards (lines 321-447), in source order -/

def navProfileG (t : String) : Bool :=
  strIncludes t "go to profile" || strIncludes t "view profile" || strIncludes t "show profile"

def goHomeG (t : String) : Bool :=
  strIncludes t "go home" || strIncludes t "go to home"

def goBackG (t : String) : Bool :=
  strIncludes t "go back" || strIncludes t "back to app"

def pricingG (t : String) : Bool :=
  strIncludes t "go to pricing" || strIncludes t "view pricing" || strIncludes t "show pricing"

def playAllG (t : String) : Bool :=
  strIncludes t "play all" || strIncludes t "play music"

def stopMusicG (t : String) : Bool :=
  strIncludes t "stop music" || strIncludes t "stop all" || strIncludes t "stop playing" ||
    strIncludes t "pause music"

def clearLibraryG (t : String) : Bool :=
  strIncludes t "clear library"

def refreshG (t : String) : Bool :=
  strIncludes t "refresh page" || strIncludes t "refresh"

def logoutG (t : String) : Bool :=
  strIncludes t "logout" || strIncludes t "sign out"

/-- The session-termination guard (line 375, also line 223). -/
def terminationG (t : String) : Bool :=
  strEndsWith t "done" || t == "stop listening" || t == "turn off" || t == "stop voice"

def clearFileG (t : String) : Bool :=
  strIncludes t "clear file" || strIncludes t "remove file" || strIncludes t "clear selection" ||
    strIncludes t "cancel upload"

def openFilesG (t : String) : Bool :=
  strIncludes t "open files" || strIncludes t "upload file" || strIncludes t "upload music" ||
    strIncludes t "select file" || strIncludes t "pick file" || strIncludes t "choose file" ||
    strIncludes t "select song"

def tosTriggerG (t : String) : Bool :=
  strIncludes t "split song" || strIncludes t "split music" || strIncludes t "split" ||
    strIncludes t "view tos" || strIncludes t "view terms" || strIncludes t "show terms" ||
    strIncludes t "terms of service" || strIncludes t "view the terms of service"

def selectAllG (t : String) : Bool :=
  strIncludes t "select all stems" || strIncludes t "select all"

def deselectAllG (t : String) : Bool :=
  strIncludes t "deselect all stems" || strIncludes t "deselect all" || strIncludes t "clear stems"

/-- Disjunction of the navigation, playback/library and system guards — all
the rules the source evaluates before the termination rule. -/
def rulesBeforeTermination (t : String) : Bool :=
  navProfileG t || goHomeG t || goBackG t || pricingG t || playAllG t || stopMusicG t ||
    clearLibraryG t || refreshG t || logoutG t

/-- Disjunction of all guards evaluated before the `select <stem>` rule. -/
def rulesBeforeSelect (t : String) : Bool :=
  rulesBeforeTermination t || terminationG t || clearFileG t || openFilesG t ||
    tosTriggerG t || selectAllG t || deselectAllG t

/-- Disjunction of all guards evaluated before the `play <stem> for|from <song>`
rule. -/
def rulesBeforeStem (t : String) : Bool :=
  rulesBeforeSelect t || (selectMatch t).isSome

/-- The ToS summary announced when the ToS flow starts (line 429). -/
def tosSummary : String :=
  "By using this service, you agree that you own the rights to the uploaded music or have permission to use it. Please say, \x27I agree\x27, to proceed."

/-- Alias normalization of the `select <stem>` rule (lines 451-456): the
capture is trimmed and rewritten by the sequential alias chain. -/
def normalizeStem (raw : String) : String :=
  let s0 := strTrim raw
  let s1 := if strIncludes s0 "drum" || strIncludes s0 "percussion" then "percussion" else s0
  let s2 := if strIncludes s1 "vocal" then "vocals" else s1
  let s3 := if strIncludes s2 "instrumental" || strIncludes s2 "instrument" then "instrumental" else s2
  let s4 := if strIncludes s3 "original" || strIncludes s3 "source" then "original audio" else s3
  if strIncludes s4 "bas" then "bass" else s4

/-- The valid stem identifiers (line 458). -/
def validStems : List String :=
  ["vocals", "percussion", "bass", "other", "instrumental", "original audio"]

/-- The `select <stem>` rule body (lines 449-464): dispatch only for a valid
stem id, but consume the command either way. -/
def selectStemRule (s : SessionState) (raw : String) :
    Bool × SessionState × List Effect :=
  let stemId := normalizeStem raw
  if validStems.contains stemId then
    (true, { s with status := some ("Toggling " ++ stemId ++ "...") },
      [Effect.dispatchEvent "voice-select-stem" stemId])
  else (true, s, [])

/-- The targeted playback rule body (lines 466-500): resolve the song by title
substring, the layer by name/id substring or special alias, then the delivered
file by basename; the command is consumed in every branch that matches the
pattern. -/
def stemPlayRule (env : Env) (s : SessionState) (text : String) :
    Bool × SessionState × List Effect :=
  match playMatch text with
  | none => (false, s, [])
  | some p =>
    let stemName := strTrim p.1
    let songTitle := strTrim p.2
    match env.urls.find? (fun u => strIncludes (strToLower u.title) songTitle) with
    | none =>
      (true, { s with status := some ("Could not find song \"" ++ songTitle ++ "\" in library") },
        [])
    | some song =>
      match song.layers.find? (fun l =>
          strIncludes (strToLower l.name) stemName ||
          strIncludes (strToLower l.id) stemName ||
          (stemName == "original audio" && l.id == "original") ||
          (stemName == "percussion" && l.id == "drums")) with
      | none =>
        let msg := "Could not find stem \"" ++ stemName ++ "\" for \"" ++ song.title ++ "\""
        (true, { s with status := some msg }, [])
      | some layer =>
        match findStemFile song layer.id with
        | some f =>
          (true, { s with status := some ("Playing " ++ layer.name ++ " for " ++ song.title) },
            [Effect.playToggle (song.id ++ "__" ++ f.filename) f.filename song.id])
        | none => (true, s, [])

/-- The standard command section (lines 318-502), reached only with `flowState`
idle; a fixed if-chain, first match wins. -/
def standardStep (env : Env) (s : SessionState) (text : String) :
    Bool × SessionState × List Effect :=
  if navProfileG text then
    (true, { s with status := some "Navigating to profile..." }, [Effect.navigate "/profile"])
  else if goHomeG text then
    (true, { s with status := some "Navigating home..." }, [Effect.navigate "/"])
  else if goBackG text then
    (true, { s with status := some "Navigating back..." }, [Effect.navigateBack])
  else if pricingG text then
    (true, { s with status := some "Navigating to pricing..." }, [Effect.navigate "/pricing"])
  else if playAllG text then
    match env.urls with
    | [] => (true, { s with status := some "No tracks found in library." }, [])
    | u :: _ =>
      (true, { s with status := some ("Playing all tracks for: " ++ u.title) },
        [Effect.playAll u.id])
  else if stopMusicG text then
    (true, { s with status := some "Stopping playback..." }, [Effect.stopAllPlayback])
  else if clearLibraryG text then
    (true, { s with status := some "Clearing library..." }, [Effect.clearLibrary])
  else if refreshG text then
    (true, { s with status := some "Refreshing page..." }, [Effect.reload])
  else if logoutG text then
    (true, { s with status := some "Logging out..." }, [Effect.logout])
  else if terminationG text then
    (true, stopListening { s with status := some "Powering off voice control..." },
      stopListeningEffects { s with status := some "Powering off voice control..." })
  else if clearFileG text then
    if env.clearButtonExists then
      (true, { s with status := some "Clearing selection..." }, [Effect.clickClearButton])
    else (true, { s with status := some "No file to clear." }, [])
  else if openFilesG text then
    if env.fileInputExists then
      let clickEff := if env.fileInputClickThrows then [] else [Effect.clickFileInput]
      if env.isMobile then
        (true,
          { s with status := some "Confirm to open...", flowState := .uploadConfirmation,
                   pendingAction := some ⟨.upload, "Open File Explorer"⟩ },
          clickEff ++ [Effect.speak "Shall I open the file explorer for you?"])
      else (true, { s with status := some "Opening file explorer..." }, clickEff)
    else if env.clearButtonExists then
      (true, { s with status := some "File already selected." },
        [Effect.speak "A file is already selected. Say \x27clear file\x27 to remove it."])
    else (true, { s with status := some "File picker unavailable." }, [])
  else if tosTriggerG text then
    (true,
      { s with status := some "Please listen to the Terms of Service...",
               flowState := .tosVerification, tosSummaryStartTime := env.now },
      [Effect.dispatchEvent "voice-view-tos" "", Effect.speak tosSummary])
  else if selectAllG text then
    (true, { s with status := some "Selecting all stems..." },
      [Effect.dispatchEvent "voice-select-stem" "all"])
  else if deselectAllG text then
    (true, { s with status := some "Deselecting all stems..." },
      [Effect.dispatchEvent "voice-select-stem" "none"])
  else
    match selectMatch text with
    | some raw => selectStemRule s raw
    | none => stemPlayRule env s text

/-- `processCommand` (lines 172-503): normalize the transcript, handle the
active conversational flow, otherwise run the standard rules. -/
def processCommand (env : Env) (s : SessionState) (transcript : String) :
    Bool × SessionState × List Effect :=
  if s.flowState = .tosVerification then tosStep env s (strTrim (strToLower transcript))
  else if s.flowState = .uploadConfirmation then uploadStep env s (strTrim (strToLower transcript))
  else if s.flowState = .stemSelectionPrompt then
    stemPromptStep env s (strTrim (strToLower transcript))
  else standardStep env s (strTrim (strToLower transcript))

/-! ## Transport handlers and watchdog (lines 511-519, 574-618) -/

/-- An inbound socket frame: either unparsable JSON, or a parsed
`{transcript, isFinal}` object (`transcript` may be absent or empty). -/
inductive InboundMessage
  | malformed
  | parsed (transcript : Option String) (isFinal : Bool)
deriving DecidableEq, Repr

/-- `socket.onmessage` (lines 574-599).  A truthy transcript resets the
inactivity watchdog (modelled both as the new `timeoutDeadline` and as a
`resetWatchdog` effect) and updates the live transcript; a final one is run
through `processCommand`, a match is toasted, and the transcript display clear
is scheduled. -/
def onMessage (env : Env) (s : SessionState) (msg : InboundMessage) :
    SessionState × List Effect :=
  match msg with
  | .malformed => (s, [])
  | .parsed t isFinal =>
    match t with
    | none => (s, [])
    | some str =>
      if str = "" then (s, [])
      else
        let s1 := { s with timeoutDeadline := some (env.now + 60000),
                           liveTranscript := some str }
        if isFinal then
          let r := processCommand env s1 str
          (r.2.1,
            Effect.resetWatchdog ::
              (r.2.2 ++ (if r.1 then [Effect.toast "Voice Command" str] else []) ++
                [Effect.scheduleTranscriptClear]))
        else (s1, [Effect.resetWatchdog])

/-- Firing of the inactivity timer (lines 513-518): a full `stopListening` iff
the controller is still listening. -/
def onTimerFire (s : SessionState) : SessionState × List Effect :=
  if s.isListening then (stopListening s, stopListeningEffects s) else (s, [])

/-- `socket.onerror` (lines 601-618): build the message (depending on whether
the socket already reports CLOSED), toast, and always tear the session down.
The `connectionState` the guard reads is NOT the state at error time: the
handler closes over the `connectionState` const of the render in which
`startListening` ran (a `useCallback` capture; unlike `onmessage`, which reads
fresh state through `processCommandRef`, lines 505-509, no ref is used here).
That captured value is the `captured` parameter. -/
def onError (captured : ConnState) (s : SessionState) (socketClosedAtError : Bool) :
    SessionState × List Effect :=
  let msg :=
    if socketClosedAtError then
      "Voice server connection refused. The backend service may be starting up or unavailable."
    else "Failed to connect to speech server."
  let toastEffs :=
    if captured = .connecting ∨ captured = .online then
      [Effect.toast "Voice Control Error" msg]
    else []
  (stopListening s, toastEffs ++ stopListeningEffects s)

/-- The error handler as actually installed.  `startListening` is reachable
only from `toggleListening`'s else branch (lines 695-701), i.e. from a render
with `connectionState = offline` (the online/connecting cases call
`stopListening` instead, and the button is disabled while connecting), and
`setConnectionState('connecting')` inside `startListening` does not update the
already-captured const — so the installed handler always carries
`captured = offline`. -/
def installedOnError (s : SessionState) (socketClosedAtError : Bool) :
    SessionState × List Effect :=
  onError ConnState.offline s socketClosedAtError

/-! ## Speech synthesis model (lines 98-125 and 669-681)

`window.speechSynthesis` keeps a queue of utterances; the head is the one in
flight.  An utterance carries which of its registered handlers drive
`isAssistantSpeakingRef` (the SpeakingFlag). -/

/-- A queued utterance together with the handlers registered on it. -/
structure Utterance where
  text : String
  setsFlagOnStart : Bool
  setsFlagOnEnd : Bool
  setsFlagOnError : Bool
deriving DecidableEq, Repr

/-- The synthesis engine plus the `isAssistantSpeakingRef` flag. -/
structure SynthState where
  queue : List Utterance
  speakingFlag : Bool
deriving DecidableEq, Repr

/-- The `speak` helper (lines 98-125): `window.speechSynthesis.cancel()` (the
queue is emptied) then a new utterance with `onstart`/`onend`/`onerror`
handlers all driving the flag is enqueued. -/
def speak (text : String) (st : SynthState) : SynthState :=
  { st with queue := [⟨text, true, true, true⟩] }

/-- `speakImmediate` inside `handleVoiceSplitSuccess` (lines 670-677): the new
utterance is enqueued WITHOUT a preceding cancel, and only `onstart`/`onend`
handlers are registered (no `onerror`). -/
def speakImmediate (text : String) (st : SynthState) : SynthState :=
  { st with queue := st.queue ++ [⟨text, true, true, false⟩] }

/-- The engine fires `onstart` for the utterance in flight. -/
def utteranceStarted (st : SynthState) : SynthState :=
  match st.queue with
  | [] => st
  | u :: _ => { st with speakingFlag := if u.setsFlagOnStart then true else st.speakingFlag }

/-- The engine fires `onend` for the utterance in flight and dequeues it. -/
def utteranceEnded (st : SynthState) : SynthState :=
  match st.queue with
  | [] => st
  | u :: rest =>
    { queue := rest, speakingFlag := if u.setsFlagOnEnd then false else st.speakingFlag }

/-- The engine fires `onerror` for the utterance in flight and dequeues it. -/
def utteranceErrored (st : SynthState) : SynthState :=
  match st.queue with
  | [] => st
  | u :: rest =>
    { queue := rest, speakingFlag := if u.setsFlagOnError then false else st.speakingFlag }

/-! ## Concrete states used by the per-claim witnesses and counterexamples -/

def c1Env : Env := ⟨100000, false, false, [], false, true, false, false⟩

def c1State : SessionState :=
  ⟨.online, none, none, .uploadConfirmation, some ⟨.upload, "Open File Explorer"⟩,
    true, 0, some 60000, true, true⟩

def c1wState : SessionState := ⟨.online, none, none, .idle, none, true, 0, some 60000, true, true⟩

def c2Env : Env := ⟨0, true, false, [], false, false, false, false⟩

def c2State : SessionState := ⟨.online, none, none, .tosVerification, none, true, 0, none, true, true⟩

def c3Env : Env := ⟨500, false, false, [], false, false, false, false⟩

def c3State : SessionState := ⟨.online, none, none, .tosVerification, none, true, 0, none, true, true⟩

def c4State : SessionState :=
  ⟨.connecting, some "x", some "y", .uploadConfirmation, some ⟨.upload, "u"⟩, true, 5, some 7,
    true, false⟩

def c5Env : Env := ⟨0, false, false, [], false, false, false, false⟩

def c5State : SessionState := ⟨.online, none, none, .idle, none, true, 0, some 60000, true, true⟩

def c6Busy : SynthState :=
  ⟨[⟨"Great. Proceeding with the request.", true, true, true⟩], true⟩

def c7State : SessionState := ⟨.online, none, none, .idle, none, true, 0, some 60000, true, true⟩

def c8Env : Env := ⟨0, false, false, [], false, false, false, false⟩

def c8State : SessionState := ⟨.online, none, none, .idle, none, true, 0, some 60000, true, true⟩

def c9Env : Env := ⟨100000, false, false, [], false, false, false, false⟩

def c9State : SessionState := ⟨.online, none, none, .idle, none, true, 0, some 5, true, true⟩

def c9wState : SessionState := ⟨.online, none, none, .idle, none, true, 0, some 5, true, false⟩

def c10Env : Env := ⟨0, false, false, [], false, false, false, false⟩

def c10State : SessionState := ⟨.online, none, none, .idle, none, true, 0, some 60000, true, true⟩

/-! ## Helper lemmas -/

lemma processCommand_tos (env : Env) (s : SessionState) (t : String)
    (h : s.flowState = .tosVerification) :
    processCommand env s t = tosStep env s (strTrim (strToLower t)) := by
  unfold processCommand
  rw [if_pos h]

lemma processCommand_upload (env : Env) (s : SessionState) (t : String)
    (h : s.flowState = .uploadConfirmation) :
    processCommand env s t = uploadStep env s (strTrim (strToLower t)) := by
  unfold processCommand
  rw [h]
  rfl

lemma processCommand_stemPrompt (env : Env) (s : SessionState) (t : String)
    (h : s.flowState = .stemSelectionPrompt) :
    processCommand env s t = stemPromptStep env s (strTrim (strToLower t)) := by
  unfold processCommand
  rw [h]
  rfl

lemma processCommand_idle (env : Env) (s : SessionState) (t : String)
    (h : s.flowState = .idle) :
    processCommand env s t = standardStep env s (strTrim (strToLower t)) := by
  unfold processCommand
  rw [h]
  rfl

lemma normStopListening : strTrim (strToLower "stop listening") = "stop listening" := rfl

lemma standard_stop (env : Env) (s : SessionState) :
    standardStep env s "stop listening" =
      (true, stopListening { s with status := some "Powering off voice control..." },
        stopListeningEffects { s with status := some "Powering off voice control..." }) := rfl

lemma tos_stop (env : Env) (s : SessionState)
    (ha : env.assistantSpeaking = false) (hb : env.synthSpeaking = false)
    (hc : ¬ env.now - s.tosSummaryStartTime < 2000) :
    tosStep env s "stop listening" =
      (true, stopListening s,
        Effect.speak "Cancelling voice control." :: stopListeningEffects s) := by
  unfold tosStep
  rw [ha, hb, if_neg hc]
  rfl

lemma upload_stop (env : Env) (s : SessionState) :
    uploadStep env s "stop listening" =
      (true, { s with status := some "Cancelled.", flowState := .idle, pendingAction := none },
        [Effect.speak "Cancelled."]) := rfl

lemma stemPrompt_stop (env : Env) (s : SessionState)
    (ha : env.assistantSpeaking = false) (hb : env.synthSpeaking = false)
    (u : MusicUrl) (tl : List MusicUrl) (hu : env.urls = u :: tl) :
    stemPromptStep env s "stop listening" =
      (true, { s with flowState := .idle },
        [Effect.speak "Okay, let me know if you need anything else."]) := by
  unfold stemPromptStep
  rw [ha, hb, hu]
  rfl

/-! ## Claims -/

/-- C2: while the SpeakingFlag (`isAssistantSpeakingRef`) is true, every
transcript processed in the `tos-verification` flow state is ignored entirely:
no match is reported, the whole state is unchanged (in particular the flow
state), and no effect — in particular no spoken feedback — is produced,
regardless of the transcript's content. -/
theorem C2_speaking_suppression (env : Env) (s : SessionState) (t : String)
    (hf : s.flowState = .tosVerification) (hs : env.assistantSpeaking = true) :
    (processCommand env s t).1 = false ∧ (processCommand env s t).2.1 = s ∧
      (processCommand env s t).2.2 = [] := by
  rw [processCommand_tos env s t hf]
  unfold tosStep
  rw [hs]
  simp

theorem C2_witness :
    (processCommand c2Env c2State "yes").1 = false ∧
      (processCommand c2Env c2State "yes").2.1 = c2State ∧
      (processCommand c2Env c2State "yes").2.2 = [] :=
  C2_speaking_suppression c2Env c2State "yes" rfl rfl

/-- C3: a transcript processed in `tos-verification` strictly less than
2000 ms after the recorded announcement time matches neither the affirmative
nor the negative rules: no match is reported, the state (hence the flow state,
still `tos-verification`) is unchanged, and no agreement or cancellation
effect occurs. -/
theorem C3_cooldown (env : Env) (s : SessionState) (t : String)
    (hf : s.flowState = .tosVerification)
    (hc : env.now - s.tosSummaryStartTime < 2000) :
    (processCommand env s t).1 = false ∧ (processCommand env s t).2.1 = s ∧
      (processCommand env s t).2.2 = [] := by
  rw [processCommand_tos env s t hf]
  unfold tosStep
  cases hA : env.assistantSpeaking <;> cases hB : env.synthSpeaking <;> simp [hc]

theorem C3_witness :
    (processCommand c3Env c3State "yes").1 = false ∧
      (processCommand c3Env c3State "yes").2.1 = c3State ∧
      (processCommand c3Env c3State "yes").2.2 = [] :=
  C3_cooldown c3Env c3State "yes" rfl (by decide)

/-- C4: `stopListening` is idempotent — iterating it `n ≥ 1` times from any
state yields the same end state as one invocation: offline, idle flow, no
pending action, timer cancelled, recorder and socket references null. -/
theorem C4_stop_idempotent (s : SessionState) (n : Nat) (hn : 1 ≤ n) :
    stopListening^[n] s = stopListening s ∧
    (stopListening s).connectionState = .offline ∧
    (stopListening s).flowState = .idle ∧
    (stopListening s).pendingAction = none ∧
    (stopListening s).timeoutDeadline = none ∧
    (stopListening s).recorderActive = false ∧
    (stopListening s).socketActive = false := by
  refine ⟨?_, rfl, rfl, rfl, rfl, rfl, rfl⟩
  obtain ⟨k, rfl⟩ : ∃ k, n = k + 1 := ⟨n - 1, by omega⟩
  clear hn
  induction k with
  | zero => rfl
  | succ m ih =>
    rw [Function.iterate_succ_apply', ih]
    rfl

theorem C4_witness : stopListening^[3] c4State = stopListening c4State :=
  (C4_stop_idempotent c4State 3 (by norm_num)).1

/-- C6 counterexample: the claim says every synthesis invocation made by the
controller cancels any in-flight utterance so at most one is ever in flight;
but the `voice-split-success` handler's `speakImmediate` enqueues without
cancelling: starting from an engine with one in-flight utterance (as left by
`speak`), its invocation leaves two utterances queued. -/
theorem C6_counterexample :
    (speakImmediate "It\x27s done, check music library." c6Busy).queue.length = 2 ∧
      ¬ (speakImmediate "It\x27s done, check music library." c6Busy).queue.length ≤ 1 := by
  constructor
  · rfl
  · decide

/-- C6 amended: invocations through `speak` do cancel-then-start — exactly one
utterance is left queued, and its handlers set the SpeakingFlag true on start
and false on end or error; the `voice-split-success` handler's
`speakImmediate`, however, appends without cancelling (utterances can queue)
and registers no error handler for the flag. -/
theorem C6_amended_speak_contract (st : SynthState) (t : String) :
    (speak t st).queue = [⟨t, true, true, true⟩] ∧
    (utteranceStarted (speak t st)).speakingFlag = true ∧
    (utteranceEnded (utteranceStarted (speak t st))).speakingFlag = false ∧
    (utteranceErrored (utteranceStarted (speak t st))).speakingFlag = false ∧
    (speakImmediate t st).queue = st.queue ++ [⟨t, true, true, false⟩] :=
  ⟨rfl, rfl, rfl, rfl, rfl⟩

/-- C7 code bug: the claim says a failure toast is shown iff the session is
`connecting` or `online` at the time of the error, and that is clearly the
guard's intent (and the spec's words) — but the installed handler's guard
tests the closure-captured `connectionState`, which is always `offline`.
Evaluated at the failing input — a transport error (socket already CLOSED)
while the session is `online` — the teardown runs but NO toast is emitted;
indeed the installed handler emits no toast from any state. -/
theorem C7_stale_closure_no_toast :
    c7State.connectionState = ConnState.online ∧
    (installedOnError c7State true).1 = stopListening c7State ∧
    Effect.stopSession ∈ (installedOnError c7State true).2 ∧
    (∀ (s : SessionState) (b : Bool) (ti d : String),
      Effect.toast ti d ∉ (installedOnError s b).2) := by
  refine ⟨rfl, rfl, by decide, ?_⟩
  intro s b ti d
  unfold installedOnError onError
  cases hr : s.recorderActive <;> cases hs2 : s.socketActive <;>
    simp [stopListeningEffects, hr, hs2]

/-- C9 counterexample: the claim says EVERY inbound transcript message (final
or not) resets the inactivity watchdog, but a message whose `transcript` field
is the empty string is falsy in the source's `if (transcript)` guard: the
timer is left untouched (stale deadline 5, not `now + 60000`) and no reset
occurs. -/
theorem C9_counterexample :
    (onMessage c9Env c9State (.parsed (some "") true)).1 = c9State ∧
    (onMessage c9Env c9State (.parsed (some "") true)).1.timeoutDeadline = some 5 ∧
    Effect.resetWatchdog ∉ (onMessage c9Env c9State (.parsed (some "") true)).2 ∧
    some 5 ≠ some (c9Env.now + 60000) := by
  refine ⟨rfl, rfl, ?_, by decide⟩
  decide

/-- C9 amended: every inbound message bearing a NON-EMPTY transcript (final or
not) resets the inactivity watchdog (a non-final one leaves the new deadline
`now + 60000` in place; a final one performs the reset before command
processing, which may itself tear the timer down again); and when the watchdog
fires with the controller still listening, exactly one full `stopListening` is
performed. -/
theorem C9_amended_watchdog (env : Env) (s s2 : SessionState) (t : String) (f : Bool)
    (ht : t ≠ "") (hl : s2.isListening = true) :
    Effect.resetWatchdog ∈ (onMessage env s (.parsed (some t) f)).2 ∧
    (onMessage env s (.parsed (some t) false)).1.timeoutDeadline = some (env.now + 60000) ∧
    onTimerFire s2 = (stopListening s2, stopListeningEffects s2) ∧
    (stopListeningEffects s2).count Effect.stopSession = 1 := by
  refine ⟨?_, ?_, ?_, ?_⟩
  · simp only [onMessage]
    rw [if_neg ht]
    cases f <;> simp
  · simp only [onMessage]
    rw [if_neg ht]
    rfl
  · unfold onTimerFire
    rw [hl]
    rfl
  · unfold stopListeningEffects
    cases hr : s2.recorderActive <;> cases hs2 : s2.socketActive <;> rfl

theorem C9_witness :
    Effect.resetWatchdog ∈ (onMessage c9Env c9State (.parsed (some "hello") false)).2 ∧
      onTimerFire c9wState = (stopListening c9wState, stopListeningEffects c9wState) :=
  ⟨(C9_amended_watchdog c9Env c9State c9wState "hello" false (by decide) rfl).1,
    (C9_amended_watchdog c9Env c9State c9wState "hello" false (by decide) rfl).2.2.1⟩

/-- C1 counterexample: in the `upload-confirmation` flow an online session
processing the final transcript "stop listening" is NOT fully torn down — the
negative branch (line 247) merely cancels the flow, so `connectionState` stays
`online` and the recorder and socket stay live, contradicting the claimed
`Offline` teardown for every flow state. -/
theorem C1_counterexample :
    (processCommand c1Env c1State "stop listening").1 = true ∧
    (processCommand c1Env c1State "stop listening").2.1.connectionState = ConnState.online ∧
    (processCommand c1Env c1State "stop listening").2.1.socketActive = true ∧
    ConnState.online ≠ ConnState.offline := by
  refine ⟨rfl, rfl, rfl, by decide⟩

/-- C1 amended: processing the final transcript "stop listening" fully tears
the session down (`offline`, `idle`, pending action cleared) when the flow
state is `idle`, or `tos-verification` with the speaking flag clear and the
2000 ms cooldown elapsed; in `upload-confirmation` it instead only cancels the
flow (back to `idle`, pending action cleared) with the connection state
unchanged, and in `stem-selection-prompt` (speaking flag clear, non-empty
library) it only exits the flow with the connection state unchanged. -/
theorem C1_amended_stop_transcript (env : Env) (s : SessionState) :
    ((s.flowState = .idle ∨
        (s.flowState = .tosVerification ∧ env.assistantSpeaking = false ∧
          env.synthSpeaking = false ∧ 2000 ≤ env.now - s.tosSummaryStartTime)) →
      (processCommand env s "stop listening").1 = true ∧
      (processCommand env s "stop listening").2.1.connectionState = .offline ∧
      (processCommand env s "stop listening").2.1.flowState = .idle ∧
      (processCommand env s "stop listening").2.1.pendingAction = none) ∧
    (s.flowState = .uploadConfirmation →
      (processCommand env s "stop listening").1 = true ∧
      (processCommand env s "stop listening").2.1.flowState = .idle ∧
      (processCommand env s "stop listening").2.1.pendingAction = none ∧
      (processCommand env s "stop listening").2.1.connectionState = s.connectionState) ∧
    ((s.flowState = .stemSelectionPrompt ∧ env.assistantSpeaking = false ∧
        env.synthSpeaking = false ∧ env.urls ≠ []) →
      (processCommand env s "stop listening").1 = true ∧
      (processCommand env s "stop listening").2.1.flowState = .idle ∧
      (processCommand env s "stop listening").2.1.connectionState = s.connectionState) := by
  refine ⟨?_, ?_, ?_⟩
  · rintro (hidle | ⟨htos, ha, hb, hc⟩)
    · rw [processCommand_idle env s _ hidle, normStopListening, standard_stop]
      exact ⟨rfl, rfl, rfl, rfl⟩
    · rw [processCommand_tos env s _ htos, normStopListening,
        tos_stop env s ha hb (by omega)]
      exact ⟨rfl, rfl, rfl, rfl⟩
  · intro hu
    rw [processCommand_upload env s _ hu, normStopListening, upload_stop]
    exact ⟨rfl, rfl, rfl, rfl⟩
  · rintro ⟨hsp, ha, hb, hurls⟩
    rcases henv : env.urls with _ | ⟨u, tl⟩
    · exact absurd henv hurls
    · rw [processCommand_stemPrompt env s _ hsp, normStopListening,
        stemPrompt_stop env s ha hb u tl henv]
      exact ⟨rfl, rfl, rfl⟩

theorem C1_witness :
    (processCommand c1Env c1wState "stop listening").2.1.connectionState = ConnState.offline ∧
      (processCommand c1Env c1wState "stop listening").2.1.flowState = FlowState.idle :=
  ⟨((C1_amended_stop_transcript c1Env c1wState).1 (Or.inl rfl)).2.1,
    ((C1_amended_stop_transcript c1Env c1wState).1 (Or.inl rfl)).2.2.1⟩

lemma standardStep_preTerm (env : Env) (s : SessionState) (text : String)
    (h : rulesBeforeTermination text = true) :
    (standardStep env s text).1 = true ∧
    (standardStep env s text).2.1.connectionState = s.connectionState ∧
    Effect.stopSession ∉ (standardStep env s text).2.2 := by
  unfold standardStep
  by_cases h1 : navProfileG text = true
  · simp [h1]
  · by_cases h2 : goHomeG text = true
    · simp [h1, h2]
    · by_cases h3 : goBackG text = true
      · simp [h1, h2, h3]
      · by_cases h4 : pricingG text = true
        · simp [h1, h2, h3, h4]
        · by_cases h5 : playAllG text = true
          · rcases henv : env.urls with _ | ⟨u, tl⟩ <;> simp [h1, h2, h3, h4, h5, henv]
          · by_cases h6 : stopMusicG text = true
            · simp [h1, h2, h3, h4, h5, h6]
            · by_cases h7 : clearLibraryG text = true
              · simp [h1, h2, h3, h4, h5, h6, h7]
              · by_cases h8 : refreshG text = true
                · simp [h1, h2, h3, h4, h5, h6, h7, h8]
                · by_cases h9 : logoutG text = true
                  · simp [h1, h2, h3, h4, h5, h6, h7, h8, h9]
                  · exfalso
                    simp [rulesBeforeTermination, h1, h2, h3, h4, h5, h6, h7, h8, h9] at h

/-- C5 counterexample: the claim says termination phrases are evaluated before
navigation/playback/system rules, so e.g. "go back done" should terminate the
session; in the source the navigation rule (line 331) fires first: the
interpreter navigates back and the session stays online with no teardown. -/
theorem C5_counterexample :
    (processCommand c5Env c5State "go back done").2.2 = [Effect.navigateBack] ∧
    (processCommand c5Env c5State "go back done").2.1.connectionState = ConnState.online ∧
    Effect.stopSession ∉ (processCommand c5Env c5State "go back done").2.2 ∧
    terminationG (strTrim (strToLower "go back done")) = true := by
  refine ⟨rfl, rfl, ?_, rfl⟩
  decide

/-- C5 amended: in the idle flow the navigation, playback/library and system
rules are evaluated BEFORE the session-termination rule: every transcript
matching both a termination phrase and one of those earlier rules (e.g.
"go back done" or "refresh done") is consumed by the earlier rule — the
command reports a match, the connection state is untouched, and no session
teardown is triggered. -/
theorem C5_amended_priority (env : Env) (s : SessionState) (t : String)
    (hf : s.flowState = .idle)
    (h1 : rulesBeforeTermination (strTrim (strToLower t)) = true)
    (_h2 : terminationG (strTrim (strToLower t)) = true) :
    (processCommand env s t).1 = true ∧
    (processCommand env s t).2.1.connectionState = s.connectionState ∧
    Effect.stopSession ∉ (processCommand env s t).2.2 := by
  rw [processCommand_idle env s t hf]
  exact standardStep_preTerm env s _ h1

theorem C5_witness :
    (processCommand c5Env c5State "refresh done").1 = true ∧
      (processCommand c5Env c5State "refresh done").2.1.connectionState = c5State.connectionState ∧
      Effect.stopSession ∉ (processCommand c5Env c5State "refresh done").2.2 :=
  C5_amended_priority c5Env c5State "refresh done" rfl (by decide) (by decide)

lemma standardStep_fallthrough (env : Env) (s : SessionState) (text : String)
    (h : rulesBeforeSelect text = false) :
    standardStep env s text =
      (match selectMatch text with
       | some raw => selectStemRule s raw
       | none => stemPlayRule env s text) := by
  have h' := h
  simp only [rulesBeforeSelect, rulesBeforeTermination, Bool.or_eq_false_iff] at h'
  obtain ⟨⟨⟨⟨⟨⟨⟨⟨⟨⟨⟨⟨⟨⟨h1, h2⟩, h3⟩, h4⟩, h5⟩, h6⟩, h7⟩, h8⟩, h9⟩, h10⟩, h11⟩, h12⟩, h13⟩,
    h14⟩, h15⟩ := h'
  unfold standardStep
  simp only [h1, h2, h3, h4, h5, h6, h7, h8, h9, h10, h11, h12, h13, h14, h15,
    Bool.false_eq_true, if_false]

lemma standardStep_someRule (env : Env) (s : SessionState) (text : String)
    (h : rulesBeforeSelect text = true) :
    (standardStep env s text).1 = true := by
  unfold standardStep
  by_cases h1 : navProfileG text = true
  · simp [h1]
  · by_cases h2 : goHomeG text = true
    · simp [h1, h2]
    · by_cases h3 : goBackG text = true
      · simp [h1, h2, h3]
      · by_cases h4 : pricingG text = true
        · simp [h1, h2, h3, h4]
        · by_cases h5 : playAllG text = true
          · rcases henv : env.urls with _ | ⟨u, tl⟩ <;> simp [h1, h2, h3, h4, h5, henv]
          · by_cases h6 : stopMusicG text = true
            · simp [h1, h2, h3, h4, h5, h6]
            · by_cases h7 : clearLibraryG text = true
              · simp [h1, h2, h3, h4, h5, h6, h7]
              · by_cases h8 : refreshG text = true
                · simp [h1, h2, h3, h4, h5, h6, h7, h8]
                · by_cases h9 : logoutG text = true
                  · simp [h1, h2, h3, h4, h5, h6, h7, h8, h9]
                  · by_cases h10 : terminationG text = true
                    · simp [h1, h2, h3, h4, h5, h6, h7, h8, h9, h10]
                    · by_cases h11 : clearFileG text = true
                      · cases hcb : env.clearButtonExists <;>
                          simp [h1, h2, h3, h4, h5, h6, h7, h8, h9, h10, h11, hcb]
                      · by_cases h12 : openFilesG text = true
                        · cases hfi : env.fileInputExists <;>
                            cases hcb : env.clearButtonExists <;>
                            cases hmo : env.isMobile <;>
                            simp [h1, h2, h3, h4, h5, h6, h7, h8, h9, h10, h11, h12, hfi,
                              hcb, hmo]
                        · by_cases h13 : tosTriggerG text = true
                          · simp [h1, h2, h3, h4, h5, h6, h7, h8, h9, h10, h11, h12, h13]
                          · by_cases h14 : selectAllG text = true
                            · simp [h1, h2, h3, h4, h5, h6, h7, h8, h9, h10, h11, h12, h13,
                                h14]
                            · by_cases h15 : deselectAllG text = true
                              · simp [h1, h2, h3, h4, h5, h6, h7, h8, h9, h10, h11, h12,
                                  h13, h14, h15]
                              · exfalso
                                simp [rulesBeforeSelect, rulesBeforeTermination, h1, h2, h3,
                                  h4, h5, h6, h7, h8, h9, h10, h11, h12, h13, h14, h15] at h

lemma selectStemRule_matched (s : SessionState) (raw : String) :
    (selectStemRule s raw).1 = true := by
  simp only [selectStemRule]
  split <;> rfl

lemma stemPlayRule_matched (env : Env) (s : SessionState) (text : String)
    (p : String × String) (hp : playMatch text = some p) :
    (stemPlayRule env s text).1 = true := by
  simp only [stemPlayRule, hp]
  split
  · rfl
  · split
    · rfl
    · split <;> rfl

lemma standardStep_matched (env : Env) (s : SessionState) (text : String) :
    (standardStep env s text).1 = true ∨
      (standardStep env s text = (false, s, []) ∧ playMatch text = none) := by
  by_cases h : rulesBeforeSelect text = true
  · exact Or.inl (standardStep_someRule env s text h)
  · rw [standardStep_fallthrough env s text (by simpa using h)]
    cases hsel : selectMatch text with
    | some raw => exact Or.inl (selectStemRule_matched s raw)
    | none =>
      cases hp : playMatch text with
      | some p => exact Or.inl (stemPlayRule_matched env s text p hp)
      | none =>
        refine Or.inr ⟨?_, rfl⟩
        show stemPlayRule env s text = (false, s, [])
        simp only [stemPlayRule, hp]

/-- C8: a transcript matching `play <stem> (for|from) <song>` in the idle flow
state is always consumed (a match is reported, never a fall-through to
no-match); and when the rule itself handles it (no earlier rule matched) and
the song — or the song's layer — does not resolve, a "not found" status is
produced with no playback (or any other) effect. -/
theorem C8_targeted_playback (env : Env) (s : SessionState) (t : String)
    (p : String × String)
    (hf : s.flowState = .idle)
    (hp : playMatch (strTrim (strToLower t)) = some p) :
    (processCommand env s t).1 = true ∧
    (rulesBeforeStem (strTrim (strToLower t)) = false →
      env.urls.find? (fun u => strIncludes (strToLower u.title) (strTrim p.2)) = none →
      (processCommand env s t).2.1.status =
          some ("Could not find song \"" ++ strTrim p.2 ++ "\" in library") ∧
        (processCommand env s t).2.2 = []) ∧
    (rulesBeforeStem (strTrim (strToLower t)) = false →
      ∀ song,
        env.urls.find? (fun u => strIncludes (strToLower u.title) (strTrim p.2)) = some song →
        song.layers.find? (fun l =>
            strIncludes (strToLower l.name) (strTrim p.1) ||
            strIncludes (strToLower l.id) (strTrim p.1) ||
            (strTrim p.1 == "original audio" && l.id == "original") ||
            (strTrim p.1 == "percussion" && l.id == "drums")) = none →
        (processCommand env s t).2.1.status =
            some ("Could not find stem \"" ++ strTrim p.1 ++ "\" for \"" ++ song.title ++ "\"") ∧
          (processCommand env s t).2.2 = []) := by
  have hnorm := processCommand_idle env s t hf
  refine ⟨?_, ?_, ?_⟩
  · rw [hnorm]
    rcases standardStep_matched env s (strTrim (strToLower t)) with hm | ⟨_, hnone⟩
    · exact hm
    · rw [hp] at hnone
      exact absurd hnone (by simp)
  · intro hr hsong
    have hr' := hr
    simp only [rulesBeforeStem, Bool.or_eq_false_iff] at hr'
    obtain ⟨hrs, hso⟩ := hr'
    have hsel : selectMatch (strTrim (strToLower t)) = none := by
      cases hsel2 : selectMatch (strTrim (strToLower t)) with
      | none => rfl
      | some v => rw [hsel2] at hso; simp at hso
    rw [hnorm, standardStep_fallthrough env s _ hrs, hsel]
    show (stemPlayRule env s (strTrim (strToLower t))).2.1.status = _ ∧
      (stemPlayRule env s (strTrim (strToLower t))).2.2 = []
    simp [stemPlayRule, hp, hsong]
  · intro hr song hsong hlayer
    have hr' := hr
    simp only [rulesBeforeStem, Bool.or_eq_false_iff] at hr'
    obtain ⟨hrs, hso⟩ := hr'
    have hsel : selectMatch (strTrim (strToLower t)) = none := by
      cases hsel2 : selectMatch (strTrim (strToLower t)) with
      | none => rfl
      | some v => rw [hsel2] at hso; simp at hso
    rw [hnorm, standardStep_fallthrough env s _ hrs, hsel]
    show (stemPlayRule env s (strTrim (strToLower t))).2.1.status = _ ∧
      (stemPlayRule env s (strTrim (strToLower t))).2.2 = []
    simp [stemPlayRule, hp, hsong, hlayer]

set_option maxHeartbeats 1000000 in
theorem C8_witness :
    (processCommand c8Env c8State "play vocals from imagine").1 = true ∧
      (processCommand c8Env c8State "play vocals from imagine").2.1.status =
        some "Could not find song \"imagine\" in library" :=
  ⟨(C8_targeted_playback c8Env c8State "play vocals from imagine" ("vocals", "imagine")
      rfl rfl).1,
    ((C8_targeted_playback c8Env c8State "play vocals from imagine" ("vocals", "imagine")
      rfl rfl).2.1 rfl rfl).1⟩

/-- C10: a transcript `select <rest>` in the idle flow state that reaches the
`select` rule (no earlier rule matched) whose alias-normalized `<rest>` is not
a valid stem identifier is still consumed as matched, but dispatches no
stem-selection event and performs no other effect — the state is unchanged. -/
theorem C10_invalid_stem (env : Env) (s : SessionState) (t : String) (raw : String)
    (hf : s.flowState = .idle)
    (hpre : rulesBeforeSelect (strTrim (strToLower t)) = false)
    (hsel : selectMatch (strTrim (strToLower t)) = some raw)
    (hval : validStems.contains (normalizeStem raw) = false) :
    (processCommand env s t).1 = true ∧ (processCommand env s t).2.1 = s ∧
      (processCommand env s t).2.2 = [] := by
  rw [processCommand_idle env s t hf, standardStep_fallthrough env s _ hpre]
  simp only [hsel]
  have hval' : ¬ normalizeStem raw ∈ validStems := by simpa using hval
  simp [selectStemRule, hval']

theorem C10_witness :
    (processCommand c10Env c10State "select piano").1 = true ∧
      (processCommand c10Env c10State "select piano").2.1 = c10State ∧
      (processCommand c10Env c10State "select piano").2.2 = [] :=
  C10_invalid_stem c10Env c10State "select piano" "piano" rfl (by decide) rfl (by decide)
